import Mathlib

/-!
Verification development for the `nidaq` repository: two standalone scripts,
`tone/tone.py` (plays a sine tone on an analog-output channel and plots it)
and `camera_pulse/camera_pulse.py` (emits a continuous pulse train on a
counter-output channel for camera triggering).

The numeric part of `tone.py` is embedded over the rationals (every float
literal appearing in the scripts — 0.25, 44100, 500, 2.5, 0.2, 100 — is
exactly representable), with the sine taken over the reals.  Each script's
sequence of driver calls is embedded as a concrete list of events, in source
order, so that ordering and effect claims can be stated about the traces.
-/

/-- FREQUENCY of the tone in Hz (`tone.py` line 6). -/
def FREQUENCY : ℚ := 500

/-- DURATION of the tone in seconds (`tone.py` line 7). -/
def DURATION : ℚ := 0.25

/-- Sample rate in Hz (`tone.py` line 8). -/
def SAMPLE_RATE : ℚ := 44100

/-- `num_timesteps = int(SAMPLE_RATE * DURATION)` (`tone.py` line 11).
Python `int()` truncates toward zero; the product is positive, so this is
the floor. -/
def num_timesteps : ℕ := (Int.floor (SAMPLE_RATE * DURATION)).toNat

/-- `np.linspace(a, b, num, endpoint=False)` yields `a + k * ((b - a) / num)`
for `k = 0, …, num - 1`; this is the value at index `k`. -/
def linspace (a b : ℚ) (num : ℕ) (k : ℕ) : ℚ :=
  a + k * ((b - a) / num)

/-- `t = np.linspace(0, DURATION, num_timesteps, endpoint=False)`
(`tone.py` line 12); value at index `k`. -/
def t (k : ℕ) : ℚ :=
  linspace 0 DURATION num_timesteps k

/-- `tone = np.sin(2 * np.pi * FREQUENCY * t)` (`tone.py` line 13);
value at index `k`. -/
noncomputable def tone (k : ℕ) : ℝ :=
  Real.sin (2 * Real.pi * (FREQUENCY : ℝ) * ((t k : ℚ) : ℝ))

/-- `tone_scaled = tone * 2.5` (`tone.py` line 14); value at index `k`. -/
noncomputable def tone_scaled (k : ℕ) : ℝ :=
  tone k * 2.5

/-- The buffer handed to `task.write(tone_scaled, auto_start=True)`
(`tone.py` line 26), as the list of its samples in order. -/
noncomputable def toneBuffer : List ℝ :=
  (List.range num_timesteps).map tone_scaled

/-- The x-series handed to `ax.plot(t, tone)` (`tone.py` line 34): the list
of sample times, cast to the reals. -/
noncomputable def tArr : List ℝ :=
  (List.range num_timesteps).map fun k => ((t k : ℚ) : ℝ)

/-- The y-series handed to `ax.plot(t, tone)` (`tone.py` line 34): the list
of plotted values, in order. -/
noncomputable def toneArr : List ℝ :=
  (List.range num_timesteps).map tone

/-- `CAMERA_FPS = 100  # hz` (`camera_pulse.py` line 10). -/
def CAMERA_FPS : ℚ := 100

/-- The `nidaqmx.constants.AcquisitionType` values the scripts use. -/
inductive AcqType where
  | FINITE
  | CONTINUOUS
  deriving DecidableEq

/-- One observable step of a script, each mirroring one call (or one numpy
computation) appearing in the source.  `createTask` is entry into a
`with nidaqmx.Task() as …` block and `closeTask` the corresponding exit. -/
inductive Event where
  | computeBuffer (n : ℕ)
  | createTask
  | addAoVoltageChan (chan : String)
  | addCoPulseChanFreq (chan : String) (freq dutyCycle : ℚ)
  | cfgSampClkTiming (rate : ℚ) (mode : AcqType) (sampsPerChan : ℕ)
  | cfgImplicitTiming (mode : AcqType)
  | write (buf : List ℝ) (autoStart : Bool)
  | start
  | waitUntilDone (timeout : ℚ)
  | readInput
  | readClock
  | stopTask
  | closeTask
  | plotData (xs ys : List ℝ)
  | setXLabel (label : String)
  | setYLabel (label : String)
  | showPlot

/-- The steps of `tone/tone.py`, in source order: compute the buffer
(lines 11-14), open the task (line 17), add the AO channel (line 18),
configure the sample clock (lines 19-23), write with `auto_start=True`
(line 26), wait (line 29), stop (line 30), close at `with`-exit, then plot
(lines 33-37). -/
noncomputable def toneTrace : List Event :=
  [ Event.computeBuffer num_timesteps,
    Event.createTask,
    Event.addAoVoltageChan ("Dev2/ao0"),
    Event.cfgSampClkTiming SAMPLE_RATE AcqType.FINITE num_timesteps,
    Event.write toneBuffer true,
    Event.waitUntilDone (DURATION + 1),
    Event.stopTask,
    Event.closeTask,
    Event.plotData tArr toneArr,
    Event.setXLabel ("Time (s)"),
    Event.setYLabel ("Voltage (V)"),
    Event.showPlot ]

/-- The steps of `camera_pulse/camera_pulse.py`, in source order: the
module-level `time.time()` (line 5), entry into the `with` block creating
`co_task` and `ci_task` (line 12), add the CO pulse channel (lines 18-22),
configure implicit timing as CONTINUOUS (line 23), `time.time()` (line 25),
start (line 26), `input()` (line 28), `time.time()` (line 29), then the two
task closes at `with`-exit.  The commented-out `ci_task` lines are not
executed and produce no events. -/
def cameraTrace : List Event :=
  [ Event.readClock,
    Event.createTask,
    Event.createTask,
    Event.addCoPulseChanFreq ("Dev2/ctr0") CAMERA_FPS 0.2,
    Event.cfgImplicitTiming AcqType.CONTINUOUS,
    Event.readClock,
    Event.start,
    Event.readInput,
    Event.readClock,
    Event.closeTask,
    Event.closeTask ]

/-- Does this event add a channel to a task? -/
def isChanAddE : Event → Bool
  | Event.addAoVoltageChan _ => true
  | Event.addCoPulseChanFreq _ _ _ => true
  | _ => false

/-- Does this event configure a task's timing mode? -/
def isTimingCfgE : Event → Bool
  | Event.cfgSampClkTiming _ _ _ => true
  | Event.cfgImplicitTiming _ => true
  | _ => false

/-- Does this event set channel or timing configuration of a task
(channel parameters such as frequency and duty cycle, or timing mode)? -/
def isConfigE (e : Event) : Bool :=
  isChanAddE e || isTimingCfgE e

/-- Does this event start the task?  Either an explicit `task.start()` or a
`task.write(…, auto_start=True)`. -/
def startsTaskE : Event → Bool
  | Event.start => true
  | Event.write _ autoStart => autoStart
  | _ => false

/-- Does this event wait (block) after the task has been started?  The tone
script waits with `wait_until_done`, the camera script with `input()`. -/
def isWaitE : Event → Bool
  | Event.waitUntilDone _ => true
  | Event.readInput => true
  | _ => false

/-- Is this event an explicit `task.stop()` call? -/
def isStopTaskE : Event → Bool
  | Event.stopTask => true
  | _ => false

/-- Is this event a task close (exit of a `with` block)? -/
def isCloseTaskE : Event → Bool
  | Event.closeTask => true
  | _ => false

/-- Is this event a task creation (entry into a `with` block)? -/
def isCreateTaskE : Event → Bool
  | Event.createTask => true
  | _ => false

/-- Is this event the numpy computation of the sample buffer? -/
def isComputeBufferE : Event → Bool
  | Event.computeBuffer _ => true
  | _ => false

/-- Is this event a buffer write to a task? -/
def isWriteE : Event → Bool
  | Event.write _ _ => true
  | _ => false

/-- Is this event the blocking `input()` read from standard input? -/
def isReadInputE : Event → Bool
  | Event.readInput => true
  | _ => false

/-- The events of a trace strictly after its first task-starting event
(the whole trace when no event starts a task). -/
def afterStart (tr : List Event) : List Event :=
  (tr.dropWhile fun e => !(startsTaskE e)).tail

/-- The operation sequence asserted by the spec for each script: a channel
add, a timing configuration, a task-starting step, a waiting step and an
explicit `task.stop()` are all present, in that order. -/
def fullSequence (tr : List Event) : Prop :=
  tr.any isChanAddE = true ∧
  tr.any isTimingCfgE = true ∧
  tr.any startsTaskE = true ∧
  tr.any isWaitE = true ∧
  tr.any isStopTaskE = true ∧
  tr.findIdx isChanAddE < tr.findIdx isTimingCfgE ∧
  tr.findIdx isTimingCfgE < tr.findIdx startsTaskE ∧
  tr.findIdx startsTaskE < tr.findIdx isWaitE ∧
  tr.findIdx isWaitE < tr.findIdx isStopTaskE

/-- The kind of state an event touches.  `filesystem` and `globalConfig`
are the persistent kinds; no call made by either script maps to them. -/
inductive Touch where
  | taskObject
  | processMemory
  | stdinStream
  | screen
  | clock
  | filesystem
  | globalConfig
  deriving DecidableEq

/-- What each embedded call touches: nidaqmx task methods act on the
in-process driver task object; the numpy computation builds arrays in
process memory; `input()` reads standard input; `time.time()` reads the
clock; matplotlib draws on the screen.  No event writes a file or stores
global configuration. -/
def touchesE : Event → Touch
  | Event.computeBuffer _ => Touch.processMemory
  | Event.createTask => Touch.taskObject
  | Event.addAoVoltageChan _ => Touch.taskObject
  | Event.addCoPulseChanFreq _ _ _ => Touch.taskObject
  | Event.cfgSampClkTiming _ _ _ => Touch.taskObject
  | Event.cfgImplicitTiming _ => Touch.taskObject
  | Event.write _ _ => Touch.taskObject
  | Event.start => Touch.taskObject
  | Event.waitUntilDone _ => Touch.taskObject
  | Event.readInput => Touch.stdinStream
  | Event.readClock => Touch.clock
  | Event.stopTask => Touch.taskObject
  | Event.closeTask => Touch.taskObject
  | Event.plotData _ _ => Touch.screen
  | Event.setXLabel _ => Touch.screen
  | Event.setYLabel _ => Touch.screen
  | Event.showPlot => Touch.screen

lemma num_timesteps_eq : num_timesteps = 11025 := by
  have h : (SAMPLE_RATE * DURATION : ℚ) = 11025 := by
    norm_num [SAMPLE_RATE, DURATION]
  rw [num_timesteps, h]
  norm_num
  decide

lemma t_eq (k : ℕ) : t k = k / 44100 := by
  rw [t, linspace, num_timesteps_eq]
  rw [DURATION]
  push_cast
  ring_nf

lemma afterStart_cameraTrace : afterStart cameraTrace =
    [Event.readInput, Event.readClock, Event.closeTask, Event.closeTask] := by
  rfl

lemma toneBuffer_getElem? (k : ℕ) (hk : k < num_timesteps) :
    toneBuffer[k]? = some (tone_scaled k) := by
  simp [toneBuffer, List.getElem?_map, List.getElem?_range, hk]

lemma toneArr_getElem? (k : ℕ) (hk : k < num_timesteps) :
    toneArr[k]? = some (tone k) := by
  simp [toneArr, List.getElem?_map, List.getElem?_range, hk]

lemma FREQUENCY_cast : ((FREQUENCY : ℚ) : ℝ) = 500 := by
  norm_num [FREQUENCY]

lemma tone_one_pos : 0 < tone 1 := by
  rw [tone, t_eq, FREQUENCY_cast]
  have hcast : ((((1 : ℕ) : ℚ) / 44100 : ℚ) : ℝ) = 1 / 44100 := by
    push_cast
    norm_num
  rw [hcast]
  apply Real.sin_pos_of_pos_of_lt_pi
  · positivity
  · nlinarith [Real.pi_pos]

/-- C1: for every index `k < num_timesteps`, the `k`-th sample written to the
analog output channel equals `2.5 * sin (2 * pi * FREQUENCY * k / SAMPLE_RATE)`
volts, and the `k`-th sample time produced by `linspace` with
`endpoint=False` is exactly `k / SAMPLE_RATE`. -/
theorem C1_tone_samples (k : ℕ) (hk : k < num_timesteps) :
    toneBuffer[k]? =
      some (2.5 * Real.sin (2 * Real.pi * (FREQUENCY : ℝ) * k / (SAMPLE_RATE : ℝ)))
    ∧ t k = (k : ℚ) / SAMPLE_RATE := by
  constructor
  · rw [toneBuffer_getElem? k hk, tone_scaled, tone, t_eq]
    have harg : 2 * Real.pi * ((FREQUENCY : ℚ) : ℝ) * (((k : ℚ) / 44100 : ℚ) : ℝ) =
        2 * Real.pi * ((FREQUENCY : ℚ) : ℝ) * (k : ℝ) / ((SAMPLE_RATE : ℚ) : ℝ) := by
      rw [FREQUENCY_cast]
      norm_num [SAMPLE_RATE]
      ring
    rw [harg]
    ring_nf
  · rw [t_eq]
    norm_num [SAMPLE_RATE]

/-- Witness for C1 at the concrete index `k = 3`. -/
theorem C1_tone_samples_witness :
    (3 : ℕ) < num_timesteps ∧
    (toneBuffer[(3 : ℕ)]? =
      some (2.5 * Real.sin (2 * Real.pi * (FREQUENCY : ℝ) * ((3 : ℕ) : ℝ) / (SAMPLE_RATE : ℝ)))
    ∧ t 3 = ((3 : ℕ) : ℚ) / SAMPLE_RATE) :=
  ⟨by simp [num_timesteps_eq], C1_tone_samples 3 (by simp [num_timesteps_eq])⟩

/-- C2 counterexample: at index 1 the value plotted by `ax.plot(t, tone)`
differs from the voltage sample written to the analog output channel — the
script plots the unscaled `tone`, not `tone_scaled`. -/
theorem C2_counterexample : toneArr[(1 : ℕ)]? ≠ toneBuffer[(1 : ℕ)]? := by
  have h1 : (1 : ℕ) < num_timesteps := by simp [num_timesteps_eq]
  rw [toneArr_getElem? 1 h1, toneBuffer_getElem? 1 h1]
  intro h
  have h3 : tone 1 = tone_scaled 1 := Option.some.inj h
  have h4 := tone_one_pos
  rw [tone_scaled] at h3
  nlinarith

/-- C2 amended: the buffer written to the analog output is, pointwise, 2.5
times the plotted series — the script plots the unit-amplitude sine `tone`
while it writes `tone_scaled = tone * 2.5`. -/
theorem C2_amended_scale : toneBuffer = toneArr.map fun y => 2.5 * y := by
  rw [toneBuffer, toneArr, List.map_map]
  refine List.map_congr_left ?_
  intro a _
  simp [tone_scaled, Function.comp]
  ring

/-- C3: the camera-pulse script adds a counter-output pulse channel at
frequency `CAMERA_FPS = 100` Hz with duty cycle 0.2, configures CONTINUOUS
(not FINITE) implicit timing, and no event after the task is started
touches channel or timing configuration. -/
theorem C3_camera_pulse_config :
    Event.addCoPulseChanFreq ("Dev2/ctr0") CAMERA_FPS 0.2 ∈ cameraTrace ∧
    CAMERA_FPS = 100 ∧
    Event.cfgImplicitTiming AcqType.CONTINUOUS ∈ cameraTrace ∧
    AcqType.CONTINUOUS ≠ AcqType.FINITE ∧
    ((afterStart cameraTrace).all fun e => !(isConfigE e)) = true := by
  refine ⟨by simp [cameraTrace], rfl, by simp [cameraTrace], by decide, by rfl⟩

/-- C4: in the tone script the sample buffer is computed before the task is
created and before it is written to; the sample clock is configured at
`SAMPLE_RATE = 44100` Hz in FINITE mode with `num_timesteps` samples per
channel, and the buffer holds all `num_timesteps` samples. -/
theorem C4_tone_precomputed_stream :
    toneTrace.findIdx isComputeBufferE < toneTrace.findIdx isCreateTaskE ∧
    toneTrace.findIdx isComputeBufferE < toneTrace.findIdx isWriteE ∧
    toneTrace.any isComputeBufferE = true ∧
    toneTrace.any isCreateTaskE = true ∧
    toneTrace.any isWriteE = true ∧
    toneBuffer.length = num_timesteps ∧
    Event.cfgSampClkTiming SAMPLE_RATE AcqType.FINITE num_timesteps ∈ toneTrace ∧
    SAMPLE_RATE = 44100 := by
  refine ⟨by decide, by decide, rfl, rfl, rfl, by simp [toneBuffer], by simp [toneTrace], rfl⟩

/-- C5: both scripts are finite straight-line call sequences, so each run
terminates; the camera-pulse script blocks on a standard-input read and its
tasks are closed only after that read, while the tone script reads no input. -/
theorem C5_termination :
    toneTrace.length = 12 ∧
    cameraTrace.length = 11 ∧
    cameraTrace.any isReadInputE = true ∧
    cameraTrace.findIdx isReadInputE < cameraTrace.findIdx isCloseTaskE ∧
    toneTrace.any isReadInputE = false := by
  refine ⟨rfl, rfl, rfl, by decide, rfl⟩

/-- C6 counterexample: the camera-pulse script does not perform the claimed
add-channel, configure-timing, start, wait, stop sequence — it never calls
`task.stop()` at all, so the stop step is skipped. -/
theorem C6_counterexample : ¬ fullSequence cameraTrace := by
  intro h
  have hstop := h.2.2.2.2.1
  rw [show cameraTrace.any isStopTaskE = false from rfl] at hstop
  exact Bool.false_ne_true hstop

/-- C6 amended: the tone script performs add channel, configure timing,
start (via `write(auto_start=True)`), wait, stop in order; the camera-pulse
script performs add channel, configure timing, start, wait (on `input()`)
in order but never calls `stop()` — its task is only closed when the `with`
block exits; in both scripts the task is never started before its channel
and timing are configured. -/
theorem C6_amended_order :
    fullSequence toneTrace ∧
    cameraTrace.any isChanAddE = true ∧
    cameraTrace.any isTimingCfgE = true ∧
    cameraTrace.any startsTaskE = true ∧
    cameraTrace.any isWaitE = true ∧
    cameraTrace.any isCloseTaskE = true ∧
    cameraTrace.any isStopTaskE = false ∧
    cameraTrace.findIdx isChanAddE < cameraTrace.findIdx isTimingCfgE ∧
    cameraTrace.findIdx isTimingCfgE < cameraTrace.findIdx startsTaskE ∧
    cameraTrace.findIdx startsTaskE < cameraTrace.findIdx isWaitE ∧
    cameraTrace.findIdx isWaitE < cameraTrace.findIdx isCloseTaskE := by
  refine ⟨?_, rfl, rfl, rfl, rfl, rfl, rfl, by decide, by decide, by decide, by decide⟩
  refine ⟨rfl, rfl, rfl, rfl, rfl, by decide, by decide, by decide, by decide⟩

/-- C7: no event of either script touches the filesystem or stores global
configuration — every event acts on the in-process task objects, process
memory, standard input, the clock or the screen — and every task created is
closed within its own run, so nothing the scripts change survives exit. -/
theorem C7_no_persistent_state :
    ((toneTrace ++ cameraTrace).all fun e =>
      !(touchesE e == Touch.filesystem) && !(touchesE e == Touch.globalConfig)) = true ∧
    toneTrace.countP isCreateTaskE = toneTrace.countP isCloseTaskE ∧
    cameraTrace.countP isCreateTaskE = cameraTrace.countP isCloseTaskE := by
  refine ⟨rfl, rfl, rfl⟩

/-- C8: every voltage sample in the buffer the tone script writes lies in
the closed interval `[-2.5, 2.5]` volts. -/
theorem C8_samples_bounded : ∀ x ∈ toneBuffer, -2.5 ≤ x ∧ x ≤ 2.5 := by
  intro x hx
  rw [toneBuffer] at hx
  obtain ⟨k, _, rfl⟩ := List.mem_map.mp hx
  have h1 := Real.neg_one_le_sin (2 * Real.pi * ((FREQUENCY : ℚ) : ℝ) * ((t k : ℚ) : ℝ))
  have h2 := Real.sin_le_one (2 * Real.pi * ((FREQUENCY : ℚ) : ℝ) * ((t k : ℚ) : ℝ))
  rw [tone_scaled, tone]
  constructor <;> nlinarith

/-- Witness for C8 at the concrete sample `tone_scaled 0`. -/
theorem C8_samples_bounded_witness :
    -2.5 ≤ tone_scaled 0 ∧ tone_scaled 0 ≤ 2.5 :=
  C8_samples_bounded (tone_scaled 0)
    (List.mem_map_of_mem tone_scaled (List.mem_range.mpr (by simp [num_timesteps_eq])))

/-- C9: the buffer written to the analog-output task has exactly the
`samps_per_chan = num_timesteps = 11025` samples configured for the FINITE
acquisition, so the write exactly fills the configured finite buffer. -/
theorem C9_write_fills_buffer :
    toneBuffer.length = num_timesteps ∧
    num_timesteps = 11025 ∧
    Event.write toneBuffer true ∈ toneTrace ∧
    Event.cfgSampClkTiming SAMPLE_RATE AcqType.FINITE num_timesteps ∈ toneTrace := by
  refine ⟨by simp [toneBuffer], num_timesteps_eq, by simp [toneTrace], by simp [toneTrace]⟩

/-- C10: the first sample time is `t 0 = 0` and the first voltage sample
written to the analog output is exactly 0 V, since `sin 0 = 0`. -/
theorem C10_first_sample_zero : t 0 = 0 ∧ toneBuffer[(0 : ℕ)]? = some 0 := by
  have ht : t 0 = 0 := by
    rw [t_eq]
    norm_num
  refine ⟨ht, ?_⟩
  have h0 : (0 : ℕ) < num_timesteps := by simp [num_timesteps_eq]
  rw [toneBuffer_getElem? 0 h0, tone_scaled, tone, ht]
  norm_num
